import Mathlib

/-
  Verification development for the TEA_POWDER sales-management repository.

  The definitions below are a shallow embedding of the business logic of
  `src/app.py` and `src/db_mongodb.py`:
  - currency amounts are modelled as `Int` (the Python code stores integral
    rupee values; the `float(...)` conversions in `app.py` are
    value-preserving on those integers);
  - the MongoDB sales collection is modelled as a `List SaleRecord`
    (insertion order); `insert_one` appends, `update_one` / `delete_one`
    act on the first document matching the `sale_id` filter;
  - timestamps (`datetime.now()`) are an abstract clock value `Nat`
    supplied by the caller;
  - Python `str.strip()` is `pystrip`, dropping whitespace at both ends.
-/

set_option autoImplicit false

namespace TeaPowder

-- Constants from app.py lines 32-50.
def BRAND_NAME : String := "GOLD Tea Powder"

def TEA_TYPES : List String := ["Mix", "Barik"]

def VILLAGES : List String := ["vairgwadi", "Bardwadi", "Harali KH", "Harali BK"]

def PAYMENT_OPTIONS : List String := ["Paid", "Half paid", "Not paid"]

-- app.py lines 38-43.
def DAY_TO_VILLAGE : List (String × String) :=
  [("Monday", "Harali KH"), ("Friday", "Bardwadi"),
   ("Saturday", "vairgwadi"), ("Sunday", "Harali BK")]

-- app.py lines 45-50.
def DEFAULT_PRICING : List (String × Int) :=
  [("100gm", 35), ("250gm", 85), ("500gm", 170), ("1kg", 350)]

-- Python dict lookup `m[k]` / `m.get(k)` on a mapping represented as an
-- association list (first binding wins).
def dictFind {α : Type} (m : List (String × α)) (k : String) : Option α :=
  (m.find? (fun p => p.1 == k)).map Prod.snd

-- Python `m.get(k, d)`.
def dictGetD {α : Type} (m : List (String × α)) (k : String) (d : α) : α :=
  (dictFind m k).getD d

-- app.py line 709: `DAY_TO_VILLAGE.get(selected_day, VILLAGES[0])`.
def autoVillage (day : String) : String :=
  dictGetD DAY_TO_VILLAGE day (VILLAGES.getD 0 "")

/-! Python `str.strip()` -/

def pyIsSpace (c : Char) : Bool := c.isWhitespace

-- Drop whitespace from both ends of a character list.
def stripChars (l : List Char) : List Char :=
  ((l.dropWhile pyIsSpace).reverse.dropWhile pyIsSpace).reverse

-- Python `s.strip()`.
def pystrip (s : String) : String := String.mk (stripChars s.data)

/-! Pricing directory (db_mongodb.py lines 264-318, app.py lines 299-310) -/

-- The pricing collection: `package` is a unique key.
abbrev Pricing : Type := List (String × Int)

-- The mapping returned by `get_all_pricing` (db_mongodb.py lines 264-280),
-- consumed by callers through `pricing.get(...)`.
def lookupRate (pricing : Pricing) (pkg : String) : Option Int :=
  dictFind pricing pkg

-- app.py line 766 / line 957: `rate = pricing.get(packaging, 0)` — an absent
-- package label silently yields rate 0.
def rateOrZero (pricing : Pricing) (pkg : String) : Int :=
  dictGetD pricing pkg 0

-- One `$setOnInsert` upsert of `initialize_default_pricing`
-- (db_mongodb.py lines 306-316): inserts the document only when no document
-- with this `package` key exists; an existing document is left unchanged.
def setOnInsert (pricing : Pricing) (pkg : String) (rate : Int) : Pricing :=
  if (dictFind pricing pkg).isSome then pricing else pricing ++ [(pkg, rate)]

-- db_mongodb.py lines 302-318: `initialize_default_pricing` loops the
-- `$setOnInsert` upsert over the default map.
def init_default_pricing (pricing : Pricing) (defaults : List (String × Int)) : Pricing :=
  defaults.foldl (fun acc pr => setOnInsert acc pr.1 pr.2) pricing

/-! Customer directory (app.py lines 789-802, db_mongodb.py lines 214-231) -/

-- The new-customer path of `render_new_sale` (app.py lines 789-802) combined
-- with `MongoDBManager.add_customer` (db_mongodb.py lines 214-231), acting on
-- one village's customer list:
--   final_customer = selected_customer.strip()
--   if final_customer not in [c.strip() for c in customer_list]:
--       add_customer(db_manager, village, final_customer)   — inserts
--           final_customer.strip(); the unique index on
--           (village, customer_name) only blocks an exact duplicate,
--           which the membership test above already excludes.
-- Returns the village's list afterwards and whether the name was newly added.
def addCustomerFlow (customerList : List String) (selectedCustomer : String) :
    List String × Bool :=
  let finalCustomer := pystrip selectedCustomer
  if finalCustomer ∈ customerList.map pystrip then (customerList, false)
  else (customerList ++ [pystrip finalCustomer], true)

/-! Sales records (db_mongodb.py lines 95-186, app.py lines 378-448, 686-996) -/

-- The dict handed to `MongoDBManager.add_sale` / `update_sale` by
-- `save_sale` / `update_sale` in app.py (lines 383-396, 413-426).  The
-- `balance` field models a caller-supplied balance value; neither store
-- operation reads it (`save_sale` passes no such key).
structure SaleInput where
  date : String
  day : String
  village : String
  customer_name : String
  brand : String
  tea_type : String
  packaging : String
  rate : Int
  quantity : Int
  total_amount : Int
  payment_status : String
  amount_paid : Int
  balance : Int
deriving DecidableEq, Repr

-- A document of the sales collection (db_mongodb.py lines 115-132).
structure SaleRecord where
  sale_id : String
  date : String
  day : String
  village : String
  customer_name : String
  brand : String
  tea_type : String
  packaging : String
  rate : Int
  quantity : Int
  total_amount : Int
  payment_status : String
  amount_paid : Int
  balance : Int
  created_at : Nat
  updated_at : Nat
deriving DecidableEq, Repr

-- The document built by `MongoDBManager.add_sale` (db_mongodb.py lines
-- 104-132): balance is derived from total/paid/status; created_at and
-- updated_at are both set to now.
def newSaleRecord (saleId : String) (now : Nat) (d : SaleInput) : SaleRecord :=
  let total := d.total_amount
  let paid := d.amount_paid
  let balance := if d.payment_status ≠ "Paid" then total - paid else 0
  { sale_id := saleId, date := d.date, day := d.day, village := d.village,
    customer_name := d.customer_name, brand := d.brand, tea_type := d.tea_type,
    packaging := d.packaging, rate := d.rate, quantity := d.quantity,
    total_amount := total, payment_status := d.payment_status,
    amount_paid := paid, balance := balance,
    created_at := now, updated_at := now }

-- `MongoDBManager.add_sale`: `insert_one` appends the document.
def add_sale (store : List SaleRecord) (saleId : String) (now : Nat)
    (d : SaleInput) : List SaleRecord :=
  store ++ [newSaleRecord saleId now d]

-- The `$set` document of `MongoDBManager.update_sale` (db_mongodb.py lines
-- 149-166): every field except sale_id and created_at is replaced; balance
-- is re-derived; updated_at is refreshed.
def applyUpdate (d : SaleInput) (now : Nat) (r : SaleRecord) : SaleRecord :=
  let total := d.total_amount
  let paid := d.amount_paid
  let balance := if d.payment_status ≠ "Paid" then total - paid else 0
  { r with
    date := d.date, day := d.day, village := d.village,
    customer_name := d.customer_name, brand := d.brand, tea_type := d.tea_type,
    packaging := d.packaging, rate := d.rate, quantity := d.quantity,
    total_amount := total, payment_status := d.payment_status,
    amount_paid := paid, balance := balance, updated_at := now }

-- `update_one` applies the `$set` to the first document matching the
-- `sale_id` filter and leaves every other document untouched.
def updateFirst (d : SaleInput) (now : Nat) :
    List SaleRecord → String → List SaleRecord
  | [], _ => []
  | r :: rs, sid =>
      if r.sale_id = sid then applyUpdate d now r :: rs
      else r :: updateFirst d now rs sid

-- `MongoDBManager.update_sale` (db_mongodb.py lines 141-177).
def update_sale (store : List SaleRecord) (saleId : String) (now : Nat)
    (d : SaleInput) : List SaleRecord :=
  updateFirst d now store saleId

-- `delete_one` removes the first document matching the `sale_id` filter.
def deleteFirst : List SaleRecord → String → List SaleRecord
  | [], _ => []
  | r :: rs, sid => if r.sale_id = sid then rs else r :: deleteFirst rs sid

-- `MongoDBManager.delete_sale` (db_mongodb.py lines 179-186): returns
-- `deleted_count > 0`, i.e. whether some document matched.
def delete_sale (store : List SaleRecord) (saleId : String) :
    List SaleRecord × Bool :=
  (deleteFirst store saleId, store.any (fun r => r.sale_id == saleId))

/-! The new-sale submission flow (app.py lines 686-824) -/

-- app.py lines 781-788: amount paid derived from the payment status.
def computeAmountPaid (paymentStatus : String) (totalAmount : Int)
    (amountPaidInput : Int) : Int :=
  if paymentStatus = "Paid" then totalAmount
  else if paymentStatus = "Half paid" then amountPaidInput
  else 0

-- The mongo_data dict that `render_new_sale` + `save_sale` hand to
-- `add_sale` (app.py lines 763-775, 781-818, 383-396): rate is
-- `pricing.get(packaging, 0)`, total is rate * quantity, amount paid comes
-- from the payment status; the dict carries no balance key (modelled as 0;
-- the store ignores it).
def newSaleInput (dateStr day village finalCustomer teaType packaging : String)
    (pricing : Pricing) (quantity : Int) (paymentStatus : String)
    (amountPaidInput : Int) : SaleInput :=
  let rate := rateOrZero pricing packaging
  let total := rate * quantity
  { date := dateStr, day := day, village := village,
    customer_name := finalCustomer, brand := BRAND_NAME, tea_type := teaType,
    packaging := packaging, rate := rate, quantity := quantity,
    total_amount := total, payment_status := paymentStatus,
    amount_paid := computeAmountPaid paymentStatus total amountPaidInput,
    balance := 0 }

-- The submit branch of `render_new_sale` (app.py lines 781-824): the
-- customer name is stripped; an empty name aborts with an error and nothing
-- is saved; otherwise the sale is handed to `add_sale`.  (The customer
-- directory side effect of lines 795-802 is `addCustomerFlow` above.)
def submitNewSale (store : List SaleRecord) (saleId : String) (now : Nat)
    (dateStr day village selectedCustomer teaType packaging : String)
    (pricing : Pricing) (quantity : Int) (paymentStatus : String)
    (amountPaidInput : Int) : Option (List SaleRecord) :=
  let finalCustomer := pystrip selectedCustomer
  if finalCustomer = "" then none
  else some (add_sale store saleId now
    (newSaleInput dateStr day village finalCustomer teaType packaging
      pricing quantity paymentStatus amountPaidInput))

/-! The edit-sale flow (app.py lines 930-996) -/

-- The updated_data dict built by the edit form of `render_view_sales`
-- (app.py lines 956-985): rate is `pricing.get(edit_packaging, 0)`, total is
-- rate * quantity, and the final paid amount is total when Paid, 0 when
-- Not paid, and the form value otherwise.
def editSaleInput (dateStr day village customer teaType packaging : String)
    (pricing : Pricing) (quantity : Int) (payment : String)
    (paidInput : Int) : SaleInput :=
  let rate := rateOrZero pricing packaging
  let total := rate * quantity
  let finalPaid :=
    if payment = "Paid" then total
    else if payment = "Not paid" then 0
    else paidInput
  { date := dateStr, day := day, village := village, customer_name := customer,
    brand := BRAND_NAME, tea_type := teaType, packaging := packaging,
    rate := rate, quantity := quantity, total_amount := total,
    payment_status := payment, amount_paid := finalPaid, balance := 0 }

-- Edit-form submission composed with `MongoDBManager.update_sale`.
def submitEditSale (store : List SaleRecord) (saleId : String) (now : Nat)
    (dateStr day village customer teaType packaging : String)
    (pricing : Pricing) (quantity : Int) (payment : String)
    (paidInput : Int) : List SaleRecord :=
  update_sale store saleId now
    (editSaleInput dateStr day village customer teaType packaging
      pricing quantity payment paidInput)

/-! Concrete records used to instantiate the theorems -/

def sampleRecord1 : SaleRecord :=
  { sale_id := "s1", date := "2024-01-01", day := "Monday",
    village := "Harali KH", customer_name := "Ravi",
    brand := "GOLD Tea Powder", tea_type := "Mix", packaging := "1kg",
    rate := 350, quantity := 1, total_amount := 350,
    payment_status := "Paid", amount_paid := 350, balance := 0,
    created_at := 5, updated_at := 5 }

def sampleRecord2 : SaleRecord :=
  { sale_id := "s2", date := "2024-01-06", day := "Saturday",
    village := "vairgwadi", customer_name := "Suresh",
    brand := "GOLD Tea Powder", tea_type := "Barik", packaging := "500gm",
    rate := 170, quantity := 2, total_amount := 340,
    payment_status := "Not paid", amount_paid := 0, balance := 340,
    created_at := 7, updated_at := 7 }

/-! Lemmas about Python strip -/

theorem dropWhile_head_false {α : Type} (p : α → Bool) (l : List α) :
    ∀ a, (l.dropWhile p).head? = some a → p a = false := by
  induction l with
  | nil => intro a h; simp [List.dropWhile] at h
  | cons x xs ih =>
      intro a h
      by_cases hx : p x = true
      · exact ih a (by simpa [List.dropWhile, hx] using h)
      · have hx1 : p x = false := by simpa using hx
        have hxa : x = a := by simpa [List.dropWhile, hx1] using h
        rw [← hxa]
        exact hx1

theorem dropWhile_of_head_false {α : Type} (p : α → Bool) (l : List α)
    (h : ∀ a, l.head? = some a → p a = false) : l.dropWhile p = l := by
  cases l with
  | nil => rfl
  | cons x xs =>
      have hx : p x = false := h x rfl
      simp [List.dropWhile, hx]

theorem stripChars_head_false (l : List Char) :
    ∀ a, (stripChars l).head? = some a → pyIsSpace a = false := by
  intro a h
  by_cases hv : (l.dropWhile pyIsSpace).reverse.dropWhile pyIsSpace = []
  · unfold stripChars at h
    rw [hv] at h
    simp at h
  · -- the stripped list's head is the last entry of a nonempty suffix of
    -- `(l.dropWhile pyIsSpace).reverse`, i.e. the head of `l.dropWhile pyIsSpace`.
    have hsplit :
        (l.dropWhile pyIsSpace).reverse.takeWhile pyIsSpace ++
          (l.dropWhile pyIsSpace).reverse.dropWhile pyIsSpace =
        (l.dropWhile pyIsSpace).reverse :=
      List.takeWhile_append_dropWhile pyIsSpace (l.dropWhile pyIsSpace).reverse
    have hlast :
        ((l.dropWhile pyIsSpace).reverse.dropWhile pyIsSpace).getLast? =
          (l.dropWhile pyIsSpace).reverse.getLast? := by
      conv_rhs => rw [← hsplit]
      exact (List.getLast?_append_of_ne_nil _ hv).symm
    have hhead : (stripChars l).head? = (l.dropWhile pyIsSpace).head? := by
      unfold stripChars
      rw [List.head?_reverse, hlast, List.getLast?_reverse]
    rw [hhead] at h
    exact dropWhile_head_false pyIsSpace l a h

theorem stripChars_getLast_false (l : List Char) :
    ∀ a, (stripChars l).getLast? = some a → pyIsSpace a = false := by
  intro a h
  unfold stripChars at h
  rw [List.getLast?_reverse] at h
  exact dropWhile_head_false pyIsSpace _ a h

theorem stripChars_idem (l : List Char) : stripChars (stripChars l) = stripChars l := by
  have h1 : (stripChars l).dropWhile pyIsSpace = stripChars l :=
    dropWhile_of_head_false pyIsSpace _ (stripChars_head_false l)
  have h2 : (stripChars l).reverse.dropWhile pyIsSpace = (stripChars l).reverse := by
    apply dropWhile_of_head_false
    intro a ha
    rw [List.head?_reverse] at ha
    exact stripChars_getLast_false l a ha
  calc stripChars (stripChars l)
      = (((stripChars l).dropWhile pyIsSpace).reverse.dropWhile pyIsSpace).reverse := rfl
    _ = ((stripChars l).reverse.dropWhile pyIsSpace).reverse := by rw [h1]
    _ = ((stripChars l).reverse).reverse := by rw [h2]
    _ = stripChars l := List.reverse_reverse _

theorem pystrip_idem (s : String) : pystrip (pystrip s) = pystrip s :=
  congrArg String.mk (stripChars_idem s.data)

/-! Lemmas about association-list lookup and the pricing upserts -/

theorem dictFind_append_left {α : Type} (m1 m2 : List (String × α)) (k : String)
    (r : α) (h : dictFind m1 k = some r) : dictFind (m1 ++ m2) k = some r := by
  induction m1 with
  | nil => simp [dictFind, List.find?] at h
  | cons p ps ih =>
      by_cases hp : p.1 == k
      · simpa [dictFind, List.find?, hp] using by
          simpa [dictFind, List.find?, hp] using h
      · have h1 : dictFind ps k = some r := by
          simpa [dictFind, List.find?, hp] using h
        simpa [dictFind, List.find?, hp] using ih h1

theorem dictFind_append_right {α : Type} (m1 m2 : List (String × α)) (k : String)
    (h : dictFind m1 k = none) : dictFind (m1 ++ m2) k = dictFind m2 k := by
  induction m1 with
  | nil => simp
  | cons p ps ih =>
      by_cases hp : p.1 == k
      · simp [dictFind, List.find?, hp] at h
      · have h1 : dictFind ps k = none := by
          simpa [dictFind, List.find?, hp] using h
        simpa [dictFind, List.find?, hp] using ih h1

theorem setOnInsert_preserves (m : Pricing) (pkg k : String) (rate : Int)
    (h : (dictFind m k).isSome) :
    dictFind (setOnInsert m pkg rate) k = dictFind m k := by
  unfold setOnInsert
  split
  · rfl
  · obtain ⟨r, hr⟩ := Option.isSome_iff_exists.mp h
    rw [hr]
    exact dictFind_append_left m [(pkg, rate)] k r hr

theorem setOnInsert_self_isSome (m : Pricing) (pkg : String) (rate : Int) :
    (dictFind (setOnInsert m pkg rate) pkg).isSome := by
  unfold setOnInsert
  split
  · assumption
  · next hnone =>
      have h0 : dictFind m pkg = none := by
        cases hd : dictFind m pkg with
        | none => rfl
        | some r => rw [hd] at hnone; simp at hnone
      rw [dictFind_append_right m [(pkg, rate)] pkg h0]
      simp [dictFind, List.find?]

theorem init_preserves_some (ds : List (String × Int)) (m : Pricing) (k : String)
    (r : Int) (h : dictFind m k = some r) :
    dictFind (init_default_pricing m ds) k = some r := by
  induction ds generalizing m with
  | nil => exact h
  | cons q ds ih =>
      have hstep : dictFind (setOnInsert m q.1 q.2) k = some r := by
        rw [setOnInsert_preserves m q.1 k q.2 (by rw [h]; rfl)]
        exact h
      simpa [init_default_pricing, List.foldl] using ih (setOnInsert m q.1 q.2) hstep

theorem init_isSome_mono (ds : List (String × Int)) (m : Pricing) (k : String)
    (h : (dictFind m k).isSome) :
    (dictFind (init_default_pricing m ds) k).isSome := by
  obtain ⟨r, hr⟩ := Option.isSome_iff_exists.mp h
  rw [init_preserves_some ds m k r hr]
  rfl

theorem init_mem_isSome (ds : List (String × Int)) (m : Pricing) (q : String × Int)
    (hq : q ∈ ds) : (dictFind (init_default_pricing m ds) q.1).isSome := by
  induction ds generalizing m with
  | nil => cases hq
  | cons p ds ih =>
      rcases List.mem_cons.mp hq with hq1 | hq2
      · subst hq1
        have h1 : (dictFind (setOnInsert m q.1 q.2) q.1).isSome :=
          setOnInsert_self_isSome m q.1 q.2
        simpa [init_default_pricing, List.foldl] using
          init_isSome_mono ds (setOnInsert m q.1 q.2) q.1 h1
      · simpa [init_default_pricing, List.foldl] using ih (setOnInsert m p.1 p.2) hq2

theorem init_noop (ds : List (String × Int)) (m : Pricing)
    (h : ∀ q ∈ ds, (dictFind m q.1).isSome) : init_default_pricing m ds = m := by
  induction ds with
  | nil => rfl
  | cons p ds ih =>
      have hp : setOnInsert m p.1 p.2 = m := by
        unfold setOnInsert
        simp [h p (List.mem_cons_self p ds)]
      calc init_default_pricing m (p :: ds)
      _ = init_default_pricing (setOnInsert m p.1 p.2) ds := rfl
      _ = init_default_pricing m ds := by rw [hp]
      _ = m := ih (fun q hq => h q (List.mem_cons_of_mem p hq))

/-! Lemmas about the record store on `sale_id` filters -/

theorem updateFirst_append (d : SaleInput) (now : Nat) (l1 l2 : List SaleRecord)
    (r : SaleRecord) (sid : String) (hid : r.sale_id = sid)
    (hl1 : ∀ x ∈ l1, x.sale_id ≠ sid) :
    updateFirst d now (l1 ++ r :: l2) sid = l1 ++ applyUpdate d now r :: l2 := by
  induction l1 with
  | nil => simp [updateFirst, hid]
  | cons x xs ih =>
      have hx : x.sale_id ≠ sid := hl1 x (List.mem_cons_self x xs)
      have hxs : ∀ y ∈ xs, y.sale_id ≠ sid :=
        fun y hy => hl1 y (List.mem_cons_of_mem x hy)
      simp [updateFirst, hx, ih hxs]

theorem deleteFirst_no_match (store : List SaleRecord) (sid : String)
    (h : ∀ r ∈ store, r.sale_id ≠ sid) : deleteFirst store sid = store := by
  induction store with
  | nil => rfl
  | cons x xs ih =>
      have hx : x.sale_id ≠ sid := h x (List.mem_cons_self x xs)
      have hxs : ∀ y ∈ xs, y.sale_id ≠ sid :=
        fun y hy => h y (List.mem_cons_of_mem x hy)
      simp [deleteFirst, hx, ih hxs]

/-! Claim theorems -/

/-- C3: looking up the rate of a package label absent from the pricing
directory does not fail with a NotFound signal: the code paths use
`pricing.get(packaging, 0)` and silently price the sale at rate 0, so the
sale dict is built with total_amount 0.  Evaluated at the failing input
pricing = [("100gm", 35)], label "1kg". -/
theorem C3_missing_package_rate_zero :
    lookupRate [("100gm", 35)] "1kg" = none ∧
    rateOrZero [("100gm", 35)] "1kg" = 0 ∧
    (newSaleInput "2024-01-01" "Monday" "Harali KH" "Ravi" "Mix" "1kg"
        [("100gm", 35)] 2 "Paid" 0).total_amount = 0 := by
  decide

/-- C5: a sale record created through the new-sale flow or rewritten through
the edit flow with payment_status "Paid" is stored with balance 0 and
amount_paid equal to total_amount. -/
theorem C5_paid_invariant (saleId : String) (now : Nat)
    (dateStr day village customer teaType packaging : String) (pricing : Pricing)
    (quantity amountPaidInput : Int) (r : SaleRecord) :
    ((newSaleRecord saleId now (newSaleInput dateStr day village customer teaType
        packaging pricing quantity "Paid" amountPaidInput)).balance = 0 ∧
      (newSaleRecord saleId now (newSaleInput dateStr day village customer teaType
        packaging pricing quantity "Paid" amountPaidInput)).amount_paid =
      (newSaleRecord saleId now (newSaleInput dateStr day village customer teaType
        packaging pricing quantity "Paid" amountPaidInput)).total_amount) ∧
    ((applyUpdate (editSaleInput dateStr day village customer teaType packaging
        pricing quantity "Paid" amountPaidInput) now r).balance = 0 ∧
      (applyUpdate (editSaleInput dateStr day village customer teaType packaging
        pricing quantity "Paid" amountPaidInput) now r).amount_paid =
      (applyUpdate (editSaleInput dateStr day village customer teaType packaging
        pricing quantity "Paid" amountPaidInput) now r).total_amount) := by
  refine ⟨⟨?_, ?_⟩, ?_, ?_⟩ <;>
    simp [newSaleRecord, newSaleInput, computeAmountPaid, applyUpdate,
      editSaleInput]

/-- C6: the static day-to-village table maps "Monday" to "Harali KH" and has
no entry for "Tuesday"; for such a day the caller's lookup
`DAY_TO_VILLAGE.get(selected_day, VILLAGES[0])` falls back to the first
configured village, "vairgwadi". -/
theorem C6_day_village_default :
    dictFind DAY_TO_VILLAGE "Monday" = some "Harali KH" ∧
    dictFind DAY_TO_VILLAGE "Tuesday" = none ∧
    autoVillage "Tuesday" = VILLAGES.getD 0 "" ∧
    VILLAGES.getD 0 "" = "vairgwadi" := by
  decide

/-- C10: both store operations derive the stored balance themselves from the
supplied total_amount, amount_paid and payment_status — 0 when the status is
"Paid" and total_amount - amount_paid otherwise; any balance value supplied
by the caller is ignored (the result does not depend on it), so a "Paid"
record is stored with balance 0 even when amount_paid differs from
total_amount. -/
theorem C10_store_derives_balance (saleId : String) (now : Nat) (d : SaleInput)
    (b : Int) (r : SaleRecord) :
    newSaleRecord saleId now { d with balance := b } = newSaleRecord saleId now d ∧
    (newSaleRecord saleId now d).balance =
      (if d.payment_status = "Paid" then 0
       else d.total_amount - d.amount_paid) ∧
    applyUpdate { d with balance := b } now r = applyUpdate d now r ∧
    (applyUpdate d now r).balance =
      (if d.payment_status = "Paid" then 0
       else d.total_amount - d.amount_paid) := by
  refine ⟨rfl, ?_, rfl, ?_⟩ <;>
    by_cases h : d.payment_status = "Paid" <;>
      simp [newSaleRecord, applyUpdate, h]

/-- C1 counterexample: with package "1kg" at rate 350 and quantity 1
(total_amount 350), a Half-paid amount input of 1000 > 350 is NOT rejected:
the submit flow saves the sale, storing amount_paid 1000 and the negative
balance -650. -/
theorem C1_overpayment_saved_cex :
    submitNewSale [] "s1" 0 "2024-01-01" "Monday" "Harali KH" "Ravi" "Mix"
        "1kg" [("1kg", 350)] 1 "Half paid" 1000 =
      some [{ sale_id := "s1", date := "2024-01-01", day := "Monday",
              village := "Harali KH", customer_name := "Ravi",
              brand := "GOLD Tea Powder", tea_type := "Mix",
              packaging := "1kg", rate := 350, quantity := 1,
              total_amount := 350, payment_status := "Half paid",
              amount_paid := 1000, balance := -650,
              created_at := 0, updated_at := 0 }] ∧
    (1000 : Int) > 350 := by
  decide

/-- C1 (amended): for a Half-paid sale with any paid-amount input A >= 0
permitted by the form (so in particular for 0 <= A <= total_amount, and also
for A > total_amount, which is not rejected), the sale is saved and the
stored balance equals total_amount - A. -/
theorem C1_half_paid_balance (store : List SaleRecord) (saleId : String)
    (now : Nat) (dateStr day village selectedCustomer teaType packaging : String)
    (pricing : Pricing) (quantity amountPaidInput : Int)
    (hc : pystrip selectedCustomer ≠ "") (hA : 0 ≤ amountPaidInput) :
    submitNewSale store saleId now dateStr day village selectedCustomer teaType
        packaging pricing quantity "Half paid" amountPaidInput =
      some (store ++ [newSaleRecord saleId now
        (newSaleInput dateStr day village (pystrip selectedCustomer) teaType
          packaging pricing quantity "Half paid" amountPaidInput)]) ∧
    (newSaleRecord saleId now
        (newSaleInput dateStr day village (pystrip selectedCustomer) teaType
          packaging pricing quantity "Half paid" amountPaidInput)).total_amount =
      rateOrZero pricing packaging * quantity ∧
    (newSaleRecord saleId now
        (newSaleInput dateStr day village (pystrip selectedCustomer) teaType
          packaging pricing quantity "Half paid" amountPaidInput)).balance =
      rateOrZero pricing packaging * quantity - amountPaidInput := by
  refine ⟨?_, ?_, ?_⟩
  · simp [submitNewSale, add_sale, hc]
  · simp [newSaleRecord, newSaleInput]
  · simp [newSaleRecord, newSaleInput, computeAmountPaid]

/-- C1 witness: the amended theorem instantiated at package "1kg" at rate
350, quantity 2, paid amount 300: the sale is saved with total 700 and
balance 700 - 300. -/
theorem C1_half_paid_balance_witness :
    submitNewSale [] "s1" 0 "2024-01-06" "Saturday" "vairgwadi" "Ravi" "Mix"
        "1kg" [("1kg", 350)] 2 "Half paid" 300 =
      some ([] ++ [newSaleRecord "s1" 0
        (newSaleInput "2024-01-06" "Saturday" "vairgwadi" (pystrip "Ravi") "Mix"
          "1kg" [("1kg", 350)] 2 "Half paid" 300)]) ∧
    (newSaleRecord "s1" 0
        (newSaleInput "2024-01-06" "Saturday" "vairgwadi" (pystrip "Ravi") "Mix"
          "1kg" [("1kg", 350)] 2 "Half paid" 300)).total_amount =
      rateOrZero [("1kg", 350)] "1kg" * 2 ∧
    (newSaleRecord "s1" 0
        (newSaleInput "2024-01-06" "Saturday" "vairgwadi" (pystrip "Ravi") "Mix"
          "1kg" [("1kg", 350)] 2 "Half paid" 300)).balance =
      rateOrZero [("1kg", 350)] "1kg" * 2 - 300 :=
  C1_half_paid_balance [] "s1" 0 "2024-01-06" "Saturday" "vairgwadi" "Ravi"
    "Mix" "1kg" [("1kg", 350)] 2 300 (by decide) (by decide)

/-- C2 counterexample: adding "Suresh Patil" to a village list that already
holds " suresh patil " — the claim's own scenario, two names equal under
trim + lowercase — creates a second entry and reports it as newly added:
the membership test of the flow strips but does not lowercase. -/
theorem C2_case_variant_duplicate_cex :
    addCustomerFlow [" suresh patil "] "Suresh Patil" =
      ([" suresh patil ", "Suresh Patil"], true) ∧
    (pystrip " suresh patil ").data.map Char.toLower =
      (pystrip "Suresh Patil").data.map Char.toLower := by
  decide

/-- C2 (amended): the add-customer flow is idempotent under the
whitespace-trim-insensitive (but case-SENSITIVE) identity rule: if two
inputs strip to the same string, the second call leaves the village list
unchanged and reports the customer as not newly added. -/
theorem C2_add_customer_trim_idem (l : List String) (n1 n2 : String)
    (h : pystrip n1 = pystrip n2) :
    addCustomerFlow (addCustomerFlow l n1).1 n2 =
      ((addCustomerFlow l n1).1, false) := by
  by_cases hm : pystrip n1 ∈ l.map pystrip
  · have h1 : addCustomerFlow l n1 = (l, false) := by
      simp [addCustomerFlow, hm]
    rw [h1]
    have hm2 : pystrip n2 ∈ l.map pystrip := h ▸ hm
    simp [addCustomerFlow, hm2]
  · have h1 : addCustomerFlow l n1 = (l ++ [pystrip (pystrip n1)], true) := by
      simp [addCustomerFlow, hm]
    rw [h1]
    have hmem : pystrip n2 ∈ (l ++ [pystrip (pystrip n1)]).map pystrip := by
      rw [List.map_append]
      apply List.mem_append_right
      simp [pystrip_idem, h]
    show (if pystrip n2 ∈ (l ++ [pystrip (pystrip n1)]).map pystrip
          then (l ++ [pystrip (pystrip n1)], false)
          else ((l ++ [pystrip (pystrip n1)]) ++ [pystrip (pystrip n2)], true)) =
        (l ++ [pystrip (pystrip n1)], false)
    rw [if_pos hmem]

/-- C2 witness: the amended theorem instantiated on an empty village list
with the inputs "Suresh Patil" and " Suresh Patil " (same letters, extra
surrounding whitespace): the second call adds nothing and reports false. -/
theorem C2_add_customer_trim_idem_witness :
    addCustomerFlow (addCustomerFlow [] "Suresh Patil").1 " Suresh Patil " =
      ((addCustomerFlow [] "Suresh Patil").1, false) :=
  C2_add_customer_trim_idem [] "Suresh Patil" " Suresh Patil " (by decide)

/-- C4: for every package present in the pricing directory with rate R and
every quantity Q >= 1, the sale record built and saved by the new-sale flow
has total_amount = R * Q. -/
theorem C4_total_amount (store : List SaleRecord) (saleId : String) (now : Nat)
    (dateStr day village selectedCustomer teaType packaging : String)
    (pricing : Pricing) (r quantity amountPaidInput : Int)
    (paymentStatus : String)
    (hrate : lookupRate pricing packaging = some r) (hq : 1 ≤ quantity)
    (hc : pystrip selectedCustomer ≠ "") :
    submitNewSale store saleId now dateStr day village selectedCustomer teaType
        packaging pricing quantity paymentStatus amountPaidInput =
      some (store ++ [newSaleRecord saleId now
        (newSaleInput dateStr day village (pystrip selectedCustomer) teaType
          packaging pricing quantity paymentStatus amountPaidInput)]) ∧
    (newSaleRecord saleId now
        (newSaleInput dateStr day village (pystrip selectedCustomer) teaType
          packaging pricing quantity paymentStatus amountPaidInput)).total_amount =
      r * quantity := by
  constructor
  · simp [submitNewSale, add_sale, hc]
  · have hz : rateOrZero pricing packaging = r := by
      unfold rateOrZero dictGetD
      unfold lookupRate at hrate
      rw [hrate]
      rfl
    simp [newSaleRecord, newSaleInput, hz]

/-- C4 witness: package "500gm" at rate 170 with quantity 3 yields a saved
sale with total_amount 170 * 3. -/
theorem C4_total_amount_witness :
    submitNewSale [] "s1" 0 "2024-01-05" "Friday" "Bardwadi" "Ravi" "Barik"
        "500gm" [("100gm", 35), ("500gm", 170)] 3 "Not paid" 0 =
      some ([] ++ [newSaleRecord "s1" 0
        (newSaleInput "2024-01-05" "Friday" "Bardwadi" (pystrip "Ravi") "Barik"
          "500gm" [("100gm", 35), ("500gm", 170)] 3 "Not paid" 0)]) ∧
    (newSaleRecord "s1" 0
        (newSaleInput "2024-01-05" "Friday" "Bardwadi" (pystrip "Ravi") "Barik"
          "500gm" [("100gm", 35), ("500gm", 170)] 3 "Not paid" 0)).total_amount =
      170 * 3 :=
  C4_total_amount [] "s1" 0 "2024-01-05" "Friday" "Bardwadi" "Ravi" "Barik"
    "500gm" [("100gm", 35), ("500gm", 170)] 170 3 0 "Not paid" (by decide)
    (by decide) (by decide)

/-- C7: initializing default pricing inserts each (package, rate) entry only
when the package is absent: a package already present with rate r keeps
rate r, and running the initialization twice (hence any number of times)
yields the same pricing directory as running it once. -/
theorem C7_init_pricing (pricing : Pricing) (ds : List (String × Int))
    (pkg : String) (r : Int) :
    (lookupRate pricing pkg = some r →
      lookupRate (init_default_pricing pricing ds) pkg = some r) ∧
    init_default_pricing (init_default_pricing pricing ds) ds =
      init_default_pricing pricing ds := by
  constructor
  · intro h
    exact init_preserves_some ds pricing pkg r h
  · apply init_noop
    intro q hq
    exact init_mem_isSome ds pricing q hq

/-- C7 witness: a directory already holding "1kg" at the custom rate 400
still reports 400 for "1kg" after initializing the defaults (which carry
"1kg" at 350). -/
theorem C7_init_pricing_witness :
    lookupRate
        (init_default_pricing [("1kg", 400)] [("500gm", 170), ("1kg", 350)])
        "1kg" = some 400 :=
  (C7_init_pricing [("1kg", 400)] [("500gm", 170), ("1kg", 350)] "1kg" 400).1
    (by decide)

/-- C8: updating an existing sale record through the edit flow rewrites only
the record addressed by the sale identifier — every record before and after
it in the store is unchanged — recomputes its total (rate * quantity) and
its balance, refreshes updated_at to the current clock, and preserves
created_at. -/
theorem C8_update_frame (l1 l2 : List SaleRecord) (r : SaleRecord)
    (sid : String) (now : Nat)
    (dateStr day village customer teaType packaging : String)
    (pricing : Pricing) (quantity paidInput : Int) (payment : String)
    (hid : r.sale_id = sid) (hl1 : ∀ x ∈ l1, x.sale_id ≠ sid) :
    submitEditSale (l1 ++ r :: l2) sid now dateStr day village customer teaType
        packaging pricing quantity payment paidInput =
      l1 ++ applyUpdate (editSaleInput dateStr day village customer teaType
        packaging pricing quantity payment paidInput) now r :: l2 ∧
    (applyUpdate (editSaleInput dateStr day village customer teaType packaging
        pricing quantity payment paidInput) now r).created_at = r.created_at ∧
    (applyUpdate (editSaleInput dateStr day village customer teaType packaging
        pricing quantity payment paidInput) now r).updated_at = now ∧
    (applyUpdate (editSaleInput dateStr day village customer teaType packaging
        pricing quantity payment paidInput) now r).total_amount =
      rateOrZero pricing packaging * quantity ∧
    (applyUpdate (editSaleInput dateStr day village customer teaType packaging
        pricing quantity payment paidInput) now r).balance =
      (if payment ≠ "Paid"
       then (applyUpdate (editSaleInput dateStr day village customer teaType
          packaging pricing quantity payment paidInput) now r).total_amount -
        (applyUpdate (editSaleInput dateStr day village customer teaType
          packaging pricing quantity payment paidInput) now r).amount_paid
       else 0) := by
  refine ⟨?_, rfl, rfl, rfl, ?_⟩
  · exact updateFirst_append _ now l1 l2 r sid hid hl1
  · simp [applyUpdate, editSaleInput]

/-- C8 witness: in a two-record store, updating the record with sale_id "s2"
leaves the record "s1" in place, preserves created_at = 7 of "s2", stamps
updated_at with the new clock 9, and stores total 350 * 2 with the
recomputed balance. -/
theorem C8_update_frame_witness :
    submitEditSale [sampleRecord1, sampleRecord2] "s2" 9 "2024-01-07" "Sunday"
        "Harali BK" "Suresh" "Mix" "1kg" [("1kg", 350)] 2 "Half paid" 100 =
      [sampleRecord1] ++ applyUpdate (editSaleInput "2024-01-07" "Sunday"
        "Harali BK" "Suresh" "Mix" "1kg" [("1kg", 350)] 2 "Half paid" 100) 9
        sampleRecord2 :: [] ∧
    (applyUpdate (editSaleInput "2024-01-07" "Sunday" "Harali BK" "Suresh"
        "Mix" "1kg" [("1kg", 350)] 2 "Half paid" 100) 9
        sampleRecord2).created_at = sampleRecord2.created_at ∧
    (applyUpdate (editSaleInput "2024-01-07" "Sunday" "Harali BK" "Suresh"
        "Mix" "1kg" [("1kg", 350)] 2 "Half paid" 100) 9
        sampleRecord2).updated_at = 9 ∧
    (applyUpdate (editSaleInput "2024-01-07" "Sunday" "Harali BK" "Suresh"
        "Mix" "1kg" [("1kg", 350)] 2 "Half paid" 100) 9
        sampleRecord2).total_amount = rateOrZero [("1kg", 350)] "1kg" * 2 ∧
    (applyUpdate (editSaleInput "2024-01-07" "Sunday" "Harali BK" "Suresh"
        "Mix" "1kg" [("1kg", 350)] 2 "Half paid" 100) 9
        sampleRecord2).balance =
      (if "Half paid" ≠ "Paid"
       then (applyUpdate (editSaleInput "2024-01-07" "Sunday" "Harali BK"
          "Suresh" "Mix" "1kg" [("1kg", 350)] 2 "Half paid" 100) 9
          sampleRecord2).total_amount -
        (applyUpdate (editSaleInput "2024-01-07" "Sunday" "Harali BK" "Suresh"
          "Mix" "1kg" [("1kg", 350)] 2 "Half paid" 100) 9
          sampleRecord2).amount_paid
       else 0) :=
  C8_update_frame [sampleRecord1] [] sampleRecord2 "s2" 9 "2024-01-07" "Sunday"
    "Harali BK" "Suresh" "Mix" "1kg" [("1kg", 350)] 2 100 "Half paid"
    (by decide) (by decide)

/-- C9: deleting a sale record by a sale identifier that matches no stored
record returns failure (false) and leaves the stored records unchanged. -/
theorem C9_delete_missing (store : List SaleRecord) (sid : String)
    (h : ∀ r ∈ store, r.sale_id ≠ sid) :
    delete_sale store sid = (store, false) := by
  unfold delete_sale
  rw [deleteFirst_no_match store sid h]
  have hany : store.any (fun r => r.sale_id == sid) = false := by
    rw [List.any_eq_false]
    intro r hr
    simpa using h r hr
  rw [hany]

/-- C9 witness: deleting sale id "zzz" from a store holding only the record
with sale id "s1" returns false and the unchanged store. -/
theorem C9_delete_missing_witness :
    delete_sale [sampleRecord1] "zzz" = ([sampleRecord1], false) :=
  C9_delete_missing [sampleRecord1] "zzz" (by decide)

end TeaPowder
